import Mathlib

/-!
Shallow embedding of the Activity Matching & Social Connection Engine of
`src/activities.py` (backend-api).

Modelling conventions:
- MongoDB documents become Lean structures (`Activity`, `Connection`); the
  two collections plus the ObjectId generator become the `DB` state record.
- `datetime` values become integer timestamps (`Time := Int`, seconds);
  `timedelta(hours=n)` is `n * 3600`.
- ObjectIds become `Nat` ids drawn from per-collection counters.
- Python `status` strings stay strings ("active", "completed", "cancelled",
  "pending", "accepted", "declined") exactly as the source compares them.
- `collection.find_one(q)` is `List.find?` with the query predicate (Mongo
  returns the first match in natural order); `update_one` updates the first
  matching document (`updateFirst`); `update_many` maps over the collection.
- Geographic coordinates are exact rationals; the `$near` geospatial query
  and the float `haversine` distance are handled where `find_nearby_activities`
  is embedded (see its doc comment).
-/

abbrev ClerkId := String

abbrev Time := Int

/-- One entry of a connection's `messages` array, as `send_message` builds it. -/
structure Message where
  sender_id : ClerkId
  message : String
  sent_at : Time
deriving DecidableEq, Repr

/-- An `activities` collection document, as `create_activity` shapes it.
The presentational `activity_info` metadata (icon/label/color) and the
GeoJSON duplicate of `lat`/`lon` are not behavioral and are omitted. -/
structure Activity where
  id : Nat
  clerk_id : ClerkId
  activity_type : String
  lat : Rat
  lon : Rat
  place_name : Option String
  scheduled_time : Time
  mood : Option String
  description : Option String
  max_participants : Int
  participants : List ClerkId
  participant_count : Int
  is_public : Bool
  status : String
  created_at : Time
  updated_at : Time
  expires_at : Time
deriving DecidableEq, Repr

/-- A `connections` collection document, as `create_connection_request` shapes it. -/
structure Connection where
  id : Nat
  from_clerk_id : ClerkId
  to_clerk_id : ClerkId
  activity_id : Nat
  status : String
  chat_enabled : Bool
  messages : List Message
  created_at : Time
  updated_at : Time
deriving DecidableEq, Repr

/-- The persistent store: the two collections touched by the engine plus the
id counters standing for ObjectId generation at `insert_one`. -/
structure DB where
  activities : List Activity
  connections : List Connection
  nextActivityId : Nat
  nextConnectionId : Nat
deriving DecidableEq, Repr

/-- Keys of the `ACTIVITY_TYPES` dict (the fixed category set). -/
def ACTIVITY_TYPES : List String :=
  ["cafe", "garden", "restaurant", "mall", "library", "movie", "gym", "event",
   "coworking", "other"]

/-- The `MOOD_TYPES` list. -/
def MOOD_TYPES : List String :=
  ["chill", "social", "study", "adventure", "networking", "casual"]

/-- `update_one` / Mongo `_id` updates: apply `f` to the first element
satisfying `p`, leave the rest unchanged. -/
def updateFirst {α : Type} (p : α → Bool) (f : α → α) : List α → List α
  | [] => []
  | x :: xs => if p x then f x :: xs else x :: updateFirst p f xs

/-- `db.activities.find_one({"_id": ObjectId(activity_id)})`. -/
def findActivity (db : DB) (activity_id : Nat) : Option Activity :=
  db.activities.find? (fun a => a.id == activity_id)

/-- `db.connections.find_one({"_id": ObjectId(connection_id)})`. -/
def findConnection (db : DB) (connection_id : Nat) : Option Connection :=
  db.connections.find? (fun c => c.id == connection_id)

/-- Result of `create_activity`: a `ValueError` for a bad category/mood, or
the new store plus the inserted document. -/
inductive CreateResult
  | invalid (msg : String)
  | ok (db : DB) (a : Activity)
deriving DecidableEq, Repr

/-- `create_activity` (src/activities.py lines 78-133): validates category and
mood, defaults `scheduled_time` to now, inserts the document with the creator
as first participant, `status="active"`, `expires_at = scheduled_time + 4h`.
Python's mood check is `if mood and mood not in MOOD_TYPES` — a `Some ""` mood
is falsy in Python, hence exempt from validation, which the model mirrors. -/
def create_activity (db : DB) (clerk_id : ClerkId) (activity_type : String)
    (lat lon : Rat) (place_name : Option String) (scheduled_time : Option Time)
    (mood : Option String) (description : Option String)
    (max_participants : Int) (is_public : Bool) (now : Time) : CreateResult :=
  if activity_type ∉ ACTIVITY_TYPES then
    .invalid "Invalid activity type"
  else if (match mood with
           | some m => m != "" && !(MOOD_TYPES.contains m)
           | none => false : Bool) then
    .invalid "Invalid mood"
  else
    let sched := scheduled_time.getD now
    let a : Activity :=
      { id := db.nextActivityId
        clerk_id := clerk_id
        activity_type := activity_type
        lat := lat
        lon := lon
        place_name := place_name
        scheduled_time := sched
        mood := mood
        description := description
        max_participants := max_participants
        participants := [clerk_id]
        participant_count := 1
        is_public := is_public
        status := "active"
        created_at := now
        updated_at := now
        expires_at := sched + 4 * 3600 }
    .ok { db with
          activities := db.activities ++ [a]
          nextActivityId := db.nextActivityId + 1 } a

/-- The keyword arguments `update_activity` may receive, already restricted to
its `allowed_fields` whitelist; `none` stands both for "not passed" and for an
explicit `None`, which Python's `v is not None` filter treats alike. -/
structure UpdateFields where
  place_name : Option String
  scheduled_time : Option Time
  mood : Option String
  description : Option String
  max_participants : Option Int
  is_public : Option Bool
  status : Option String
deriving DecidableEq, Repr

/-- The `$set` document `update_activity` builds: each provided field
overwrites, `updated_at` is always bumped. `expires_at` is not recomputed. -/
def applyUpdates (u : UpdateFields) (now : Time) (a : Activity) : Activity :=
  { a with
    place_name := match u.place_name with | some v => some v | none => a.place_name
    scheduled_time := u.scheduled_time.getD a.scheduled_time
    mood := match u.mood with | some v => some v | none => a.mood
    description := match u.description with | some v => some v | none => a.description
    max_participants := u.max_participants.getD a.max_participants
    is_public := u.is_public.getD a.is_public
    status := u.status.getD a.status
    updated_at := now }

/-- `update_activity` (lines 155-175): `None` unless the activity exists and
the requester is its creator; otherwise applies the whitelisted `$set` (which
includes `status`, an arbitrary string from the route) and returns the store. -/
def update_activity (db : DB) (activity_id : Nat) (clerk_id : ClerkId)
    (u : UpdateFields) (now : Time) : Option DB :=
  match findActivity db activity_id with
  | none => none
  | some a =>
    if a.clerk_id ≠ clerk_id then none
    else
      some { db with
             activities := updateFirst (fun x => x.id == activity_id)
               (applyUpdates u now) db.activities }

/-- `cancel_activity` (lines 177-184): `update_one` filtered on `_id` and
`clerk_id`, setting `status="cancelled"` with no check of the current status.
The returned Bool is `modified_count > 0`: true iff a document matched and the
`$set` actually changed it. -/
def cancel_activity (db : DB) (activity_id : Nat) (clerk_id : ClerkId)
    (now : Time) : DB × Bool :=
  match db.activities.find? (fun x => x.id == activity_id && x.clerk_id == clerk_id) with
  | none => (db, false)
  | some a =>
    let a' := { a with status := "cancelled", updated_at := now }
    ({ db with
       activities := updateFirst (fun x => x.id == activity_id && x.clerk_id == clerk_id)
         (fun x => { x with status := "cancelled", updated_at := now }) db.activities },
     decide (a' ≠ a))

/-- The symmetric-pair-and-activity query `create_connection_request` issues:
`$or` over both orientations of `{from_clerk_id, to_clerk_id}` and an exact
`activity_id` match. -/
def connMatches (from_clerk_id to_clerk_id : ClerkId) (activity_id : Nat)
    (c : Connection) : Bool :=
  ((c.from_clerk_id == from_clerk_id && c.to_clerk_id == to_clerk_id) ||
   (c.from_clerk_id == to_clerk_id && c.to_clerk_id == from_clerk_id)) &&
  c.activity_id == activity_id

/-- The fresh document `create_connection_request` inserts when no existing
connection matches (lines 384-393): status "pending", chat disabled, no
messages. -/
def newConnection (db : DB) (from_clerk_id to_clerk_id : ClerkId)
    (activity_id : Nat) (now : Time) : Connection :=
  { id := db.nextConnectionId
    from_clerk_id := from_clerk_id
    to_clerk_id := to_clerk_id
    activity_id := activity_id
    status := "pending"
    chat_enabled := false
    messages := []
    created_at := now
    updated_at := now }

/-- `create_connection_request` (lines 368-398): return the existing
connection for the pair and activity (either orientation) unchanged, else
insert a fresh pending one with chat disabled and no messages. -/
def create_connection_request (db : DB) (from_clerk_id to_clerk_id : ClerkId)
    (activity_id : Nat) (now : Time) : DB × Connection :=
  match db.connections.find? (connMatches from_clerk_id to_clerk_id activity_id) with
  | some existing => (db, existing)
  | none =>
    ({ db with
       connections := db.connections ++ [newConnection db from_clerk_id to_clerk_id activity_id now]
       nextConnectionId := db.nextConnectionId + 1 },
     newConnection db from_clerk_id to_clerk_id activity_id now)

/-- `join_activity`'s outcome: one constructor per `ValueError` plus success
carrying the new store. -/
inductive JoinResult
  | notFound
  | notActive
  | alreadyJoined
  | capacityExceeded
  | ok (db : DB)
deriving DecidableEq, Repr

/-- The read-time checks of `join_activity` (lines 312-319) on the snapshot
returned by its `find_one`: `some e` is the raised error, `none` means all
checks pass. -/
def join_check (a : Activity) (clerk_id : ClerkId) : Option JoinResult :=
  if a.status ≠ "active" then some .notActive
  else if clerk_id ∈ a.participants then some .alreadyJoined
  else if a.participant_count ≥ a.max_participants then some .capacityExceeded
  else none

/-- The write of `join_activity` (lines 322-329): an unconditional
`update_one` on `_id` with `$push participants`, `$inc participant_count`,
`$set updated_at` — its filter carries no capacity or status precondition. -/
def join_write (db : DB) (activity_id : Nat) (clerk_id : ClerkId) (now : Time) : DB :=
  { db with
    activities := updateFirst (fun a => a.id == activity_id)
      (fun a =>
        { a with
          participants := a.participants ++ [clerk_id]
          participant_count := a.participant_count + 1
          updated_at := now }) db.activities }

/-- `join_activity` (lines 304-338) run sequentially: read, check, write, then
`create_connection_request(from=joiner, to=owner, activity)`. -/
def join_activity (db : DB) (activity_id : Nat) (clerk_id : ClerkId)
    (now : Time) : JoinResult :=
  match findActivity db activity_id with
  | none => .notFound
  | some a =>
    match join_check a clerk_id with
    | some e => e
    | none =>
      .ok (create_connection_request (join_write db activity_id clerk_id now)
            clerk_id a.clerk_id activity_id now).1

/-- `leave_activity`'s outcome: the creator-cannot-leave `ValueError`, or the
returned Bool (false both for a missing activity and a non-participant). -/
inductive LeaveResult
  | creatorCannotLeave
  | result (changed : Bool) (db : DB)
deriving DecidableEq, Repr

/-- `leave_activity` (lines 340-364): `$pull` removes every copy of the user
from `participants` while `$inc` decrements `participant_count` by exactly 1. -/
def leave_activity (db : DB) (activity_id : Nat) (clerk_id : ClerkId)
    (now : Time) : LeaveResult :=
  match findActivity db activity_id with
  | none => .result false db
  | some a =>
    if a.clerk_id == clerk_id then .creatorCannotLeave
    else if clerk_id ∉ a.participants then .result false db
    else
      .result true
        { db with
          activities := updateFirst (fun x => x.id == activity_id)
            (fun x =>
              { x with
                participants := x.participants.filter (fun p => p != clerk_id)
                participant_count := x.participant_count - 1
                updated_at := now }) db.activities }

/-- The `$set` document of `respond_to_connection` (lines 424-434):
`status = "accepted" if accept else "declined"`, `chat_enabled = accept`,
`updated_at = now` — applied with no check of the current status. -/
def respondSet (accept : Bool) (now : Time) (c : Connection) : Connection :=
  { c with
    status := if accept then "accepted" else "declined"
    chat_enabled := accept
    updated_at := now }

/-- `respond_to_connection` (lines 416-437): `None` unless the connection
exists and the responder is the recorded recipient; otherwise overwrites
`status` and `chat_enabled` from the accept flag — with no check of the
current status — and returns the re-fetched document. -/
def respond_to_connection (db : DB) (connection_id : Nat) (clerk_id : ClerkId)
    (accept : Bool) (now : Time) : Option (DB × Connection) :=
  match findConnection db connection_id with
  | none => none
  | some c =>
    if c.to_clerk_id ≠ clerk_id then none
    else
      let db' : DB :=
        { db with
          connections := updateFirst (fun x => x.id == connection_id)
            (respondSet accept now) db.connections }
      match findConnection db' connection_id with
      | some c' => some (db', c')
      | none => none

/-- `send_message`'s outcome: `None` (missing connection), one of the two
`ValueError`s, or success carrying the new store. -/
inductive SendResult
  | notFound
  | chatNotEnabled
  | unauthorized
  | ok (db : DB)
deriving DecidableEq, Repr

/-- The `$push`/`$set` update of `send_message` (lines 480-492): append the
message entry `{sender_id, message, sent_at=now}` and bump `updated_at`. -/
def sendPush (clerk_id : ClerkId) (message : String) (now : Time)
    (c : Connection) : Connection :=
  { c with
    messages := c.messages ++ [⟨clerk_id, message, now⟩]
    updated_at := now }

/-- `send_message` (lines 465-494): the chat-enabled check precedes the
party check; on success appends `{sender, text, now}` and bumps `updated_at`. -/
def send_message (db : DB) (connection_id : Nat) (clerk_id : ClerkId)
    (message : String) (now : Time) : SendResult :=
  match findConnection db connection_id with
  | none => .notFound
  | some c =>
    if !c.chat_enabled then .chatNotEnabled
    else if clerk_id ≠ c.from_clerk_id ∧ clerk_id ≠ c.to_clerk_id then .unauthorized
    else
      .ok { db with
            connections := updateFirst (fun x => x.id == connection_id)
              (sendPush clerk_id message now) db.connections }

/-- The `update_many` filter of `cleanup_expired_activities`:
`status == "active" and expires_at < now`. -/
def expiredFilter (now : Time) (a : Activity) : Bool :=
  a.status == "active" && decide (a.expires_at < now)

/-- `cleanup_expired_activities` (lines 509-524): `update_many` setting
`status="completed"` on every active expired activity (nothing else changes,
`updated_at` is not bumped); returns `modified_count`, which equals the number
of matching documents since each match's status actually changes. -/
def cleanup_expired_activities (db : DB) (now : Time) : DB × Nat :=
  ({ db with
     activities := db.activities.map (fun a =>
       if expiredFilter now a then { a with status := "completed" } else a) },
   (db.activities.filter (expiredFilter now)).length)

/-- The document-level filters of `find_nearby_activities`' query (lines
203-226) apart from the geospatial clause: status, visibility, expiry and the
optional type/mood/excluded-user filters. -/
def nearbyFilter (now : Time) (activity_type : Option String)
    (mood : Option String) (exclude_clerk_id : Option ClerkId) (a : Activity) : Bool :=
  a.status == "active" && a.is_public && decide (now < a.expires_at) &&
  (match activity_type with | some t => a.activity_type == t | none => true) &&
  (match mood with | some m => a.mood == some m | none => true) &&
  (match exclude_clerk_id with | some e => a.clerk_id != e | none => true)

/-- The post-query processing of `find_nearby_activities` (lines 228-252).
The `$near`-filtered, spatial-index-ordered, `limit`-capped result list
`fetched` is a parameter: the geospatial store is an external collaborator and
its within-radius selection and ordering happen server-side. `dist` stands for
the IEEE-float computation `round(haversine(lat, lon, act.lat, act.lon), 2)`
of lines 234-248, kept abstract because it is floating point; the only fact
about it used anywhere is that the distance from a point to itself is exactly
`0`, which holds of the float code (every intermediate there is exact: the
deltas are `0.0`, `sin(0.0) = 0.0`, `atan2(0.0, 1.0) = 0.0`). The function
returns the fetched documents in the store's order, each paired with its
computed distance — it performs no re-sort of any kind. -/
def find_nearby_activities (dist : Rat × Rat → Rat × Rat → Rat)
    (lat lon : Rat) (fetched : List Activity) : List (Activity × Rat) :=
  fetched.map (fun a => (a, dist (lat, lon) (a.lat, a.lon)))

/-! ### Store-level helper lemmas -/

theorem find?_updateFirst {α : Type} (p : α → Bool) (f : α → α) (l : List α)
    (hf : ∀ x, p x = true → p (f x) = true) {a : α} (h : l.find? p = some a) :
    (updateFirst p f l).find? p = some (f a) := by
  induction l with
  | nil => simp at h
  | cons x xs ih =>
    by_cases hx : p x = true
    · rw [List.find?_cons_of_pos _ hx, Option.some.injEq] at h
      subst h
      rw [updateFirst, if_pos hx, List.find?_cons_of_pos _ (hf x hx)]
    · rw [List.find?_cons_of_neg _ hx] at h
      rw [updateFirst, if_neg hx, List.find?_cons_of_neg _ hx]
      exact ih h

theorem mem_updateFirst {α : Type} {p : α → Bool} {f : α → α} {l : List α} {y : α}
    (h : y ∈ updateFirst p f l) :
    y ∈ l ∨ ∃ x, l.find? p = some x ∧ y = f x := by
  induction l with
  | nil => simp [updateFirst] at h
  | cons x xs ih =>
    by_cases hx : p x = true
    · rw [updateFirst, if_pos hx] at h
      rcases List.mem_cons.mp h with h | h
      · exact Or.inr ⟨x, by rw [List.find?_cons_of_pos _ hx], h⟩
      · exact Or.inl (List.mem_cons_of_mem _ h)
    · rw [updateFirst, if_neg hx] at h
      rcases List.mem_cons.mp h with h | h
      · exact Or.inl (h ▸ List.mem_cons_self x xs)
      · rcases ih h with h' | ⟨z, hz, hy⟩
        · exact Or.inl (List.mem_cons_of_mem _ h')
        · exact Or.inr ⟨z, by rw [List.find?_cons_of_neg _ hx]; exact hz, hy⟩

theorem mem_of_find?_updateFirst {α : Type} (p : α → Bool) (f : α → α) (l : List α)
    (hf : ∀ x, p x = true → p (f x) = true) {a : α} (h : l.find? p = some a) :
    f a ∈ updateFirst p f l :=
  List.mem_of_find?_eq_some (find?_updateFirst p f l hf h)

theorem mem_updateFirst_id_status {p : Activity → Bool} {f : Activity → Activity}
    {l : List Activity} {a' : Activity}
    (h : a' ∈ updateFirst p f l)
    (hid : ∀ x, (f x).id = x.id) (hst : ∀ x, (f x).status = x.status) :
    ∃ a ∈ l, a'.id = a.id ∧ a'.status = a.status := by
  rcases mem_updateFirst h with h' | ⟨x, hx, rfl⟩
  · exact ⟨a', h', rfl, rfl⟩
  · exact ⟨x, List.mem_of_find?_eq_some hx, hid x, hst x⟩

theorem find?_congr_pred {α : Type} (p q : α → Bool) (l : List α)
    (h : ∀ x, p x = q x) : l.find? p = l.find? q := by
  induction l with
  | nil => rfl
  | cons x xs ih =>
    by_cases hx : p x = true
    · rw [List.find?_cons_of_pos _ hx, List.find?_cons_of_pos _ ((h x) ▸ hx)]
    · rw [List.find?_cons_of_neg _ hx, List.find?_cons_of_neg _ ((h x) ▸ hx)]
      exact ih

theorem create_connection_request_activities (db : DB) (f t : ClerkId)
    (aid : Nat) (now : Time) :
    (create_connection_request db f t aid now).1.activities = db.activities := by
  unfold create_connection_request
  cases db.connections.find? (connMatches f t aid) <;> rfl

theorem join_write_connections (db : DB) (aid : Nat) (u : ClerkId) (now : Time) :
    (join_write db aid u now).connections = db.connections := rfl


/-! ### C1: two concurrent joins racing for the last slot -/

/-- A one-free-slot activity: capacity 2 with only the owner participating. -/
def raceActivity : Activity :=
  { id := 1, clerk_id := "owner", activity_type := "cafe", lat := 0, lon := 0,
    place_name := none, scheduled_time := 0, mood := none, description := none,
    max_participants := 2, participants := ["owner"], participant_count := 1,
    is_public := true, status := "active", created_at := 0, updated_at := 0,
    expires_at := 14400 }

def raceDb : DB :=
  { activities := [raceActivity], connections := [],
    nextActivityId := 2, nextConnectionId := 0 }

/-- The store once the first join's write and connection insert have landed —
also exactly what a completed sequential `join_activity raceDb 1 "u1" 1`
leaves behind. -/
def raceDb1 : DB :=
  (create_connection_request (join_write raceDb 1 "u1" 1) "u1" "owner" 1 1).1

/-- The store after the interleaving read₁ ; read₂ ; write₁ ; write₂ of two
concurrent joins: the second join's write lands on `raceDb1` although its
read-time checks ran against the original snapshot `raceActivity`. -/
def raceDb2 : DB :=
  (create_connection_request (join_write raceDb1 1 "u2" 2) "u2" "owner" 1 2).1

/-- **C1.** `join_activity` is a naive read-then-write, not an atomic
check-and-increment: its capacity check runs on the `find_one` snapshot while
its `update_one` carries no capacity precondition. With one free slot, both
concurrent joins read the same snapshot and pass every check (so neither
raises CapacityExceeded), and after both unconditional writes land the
activity holds 3 participants against a maximum of 2 — both succeed,
over capacity. Sequentially the code is correct: after a completed first
join the second is rejected. -/
theorem join_race_not_atomic :
    (findActivity raceDb 1 = some raceActivity
      ∧ join_check raceActivity "u1" = none
      ∧ join_check raceActivity "u2" = none)
    ∧ findActivity raceDb2 1 =
        some { raceActivity with
               participants := ["owner", "u1", "u2"]
               participant_count := 3
               updated_at := 2 }
    ∧ join_activity raceDb 1 "u1" 1 = .ok raceDb1
    ∧ join_activity raceDb1 1 "u2" 2 = .capacityExceeded := by
  decide

/-! ### C3: status transitions -/

/-- An activity already in the terminal status "completed". -/
def completedActivity : Activity :=
  { id := 1, clerk_id := "A", activity_type := "cafe", lat := 0, lon := 0,
    place_name := none, scheduled_time := 0, mood := none, description := none,
    max_participants := 5, participants := ["A"], participant_count := 1,
    is_public := true, status := "completed", created_at := 0, updated_at := 0,
    expires_at := 14400 }

def completedDb : DB :=
  { activities := [completedActivity], connections := [],
    nextActivityId := 2, nextConnectionId := 0 }

/-- **C3 counterexample.** `cancel_activity` filters only on id and owner, not
on the current status: called by the owner on a *completed* activity it moves
the status to "cancelled" and reports a modification, a transition out of a
terminal state. -/
theorem cancel_leaves_terminal_state :
    completedActivity.status = "completed"
    ∧ cancel_activity completedDb 1 "A" 7 =
        ({ completedDb with
           activities := [{ completedActivity with
                            status := "cancelled", updated_at := 7 }] },
         true) := by
  decide

/-- **C3 (amended).** Join and Leave never change any activity's status, and
SweepExpired only ever transitions a status from "active" to "completed" (so
those three operations preserve terminal states); but Cancel by the owner
sets the status to "cancelled" whatever it currently is, and Update by the
owner sets the status to any supplied value — terminal states are not
preserved by Cancel or Update. -/
theorem status_transition_spec :
    (∀ db activity_id u now db', join_activity db activity_id u now = .ok db' →
      ∀ a' ∈ db'.activities, ∃ a ∈ db.activities, a'.id = a.id ∧ a'.status = a.status)
    ∧ (∀ db activity_id u now b db',
        leave_activity db activity_id u now = .result b db' →
        ∀ a' ∈ db'.activities, ∃ a ∈ db.activities, a'.id = a.id ∧ a'.status = a.status)
    ∧ (∀ db now, ∀ a' ∈ (cleanup_expired_activities db now).1.activities,
        ∃ a ∈ db.activities, a'.id = a.id ∧
          (a'.status = a.status ∨ (a.status = "active" ∧ a'.status = "completed")))
    ∧ (∀ db activity_id u now a,
        db.activities.find? (fun x => x.id == activity_id && x.clerk_id == u) = some a →
        { a with status := "cancelled", updated_at := now }
          ∈ (cancel_activity db activity_id u now).1.activities)
    ∧ (∀ db activity_id u now flds db' s,
        flds.status = some s →
        update_activity db activity_id u flds now = some db' →
        ∃ a, findActivity db activity_id = some a ∧
          applyUpdates flds now a ∈ db'.activities ∧ (applyUpdates flds now a).status = s) := by
  refine ⟨?_, ?_, ?_, ?_, ?_⟩
  · -- Join: the only activity write is join_write, which keeps id and status
    intro db activity_id u now db' h a' ha'
    unfold join_activity at h
    split at h
    · exact absurd h (by simp)
    · rename_i a hfind
      split at h
      · rename_i e hchk
        subst h
        unfold join_check at hchk
        split_ifs at hchk <;> simp_all
      · injection h with h
        subst h
        rw [create_connection_request_activities] at ha'
        have ha2 : a' ∈ updateFirst (fun x => x.id == activity_id)
            (fun x =>
              { x with
                participants := x.participants ++ [u]
                participant_count := x.participant_count + 1
                updated_at := now }) db.activities := ha'
        exact mem_updateFirst_id_status ha2 (fun x => rfl) (fun x => rfl)
  · -- Leave: the only activity write keeps id and status
    intro db activity_id u now b db' h a' ha'
    unfold leave_activity at h
    split at h
    · cases h
      exact ⟨a', ha', rfl, rfl⟩
    · rename_i a hfind
      by_cases hc : (a.clerk_id == u) = true
      · rw [if_pos hc] at h
        cases h
      · rw [if_neg hc] at h
        by_cases hm : u ∈ a.participants
        · rw [if_neg (not_not_intro hm)] at h
          cases h
          have ha2 : a' ∈ updateFirst (fun x => x.id == activity_id)
              (fun x =>
                { x with
                  participants := x.participants.filter (fun p => p != u)
                  participant_count := x.participant_count - 1
                  updated_at := now }) db.activities := ha'
          exact mem_updateFirst_id_status ha2 (fun x => rfl) (fun x => rfl)
        · rw [if_pos hm] at h
          cases h
          exact ⟨a', ha', rfl, rfl⟩
  · -- Sweep: update_many's map either fixes a document or completes an active one
    intro db now a' ha'
    rcases List.mem_map.mp ha' with ⟨a, ha, hfa⟩
    by_cases hexp : expiredFilter now a = true
    · rw [if_pos hexp] at hfa
      have hst : a.status = "active" := by
        have := (Bool.and_eq_true _ _).mp hexp
        exact eq_of_beq this.1
      exact ⟨a, ha, by rw [← hfa], Or.inr ⟨hst, by rw [← hfa]⟩⟩
    · rw [if_neg hexp] at hfa
      exact ⟨a, ha, by rw [← hfa], Or.inl (by rw [← hfa])⟩
  · -- Cancel: the matched document is updated to "cancelled" unconditionally
    intro db activity_id u now a hfind
    unfold cancel_activity
    rw [hfind]
    exact mem_of_find?_updateFirst (fun x => x.id == activity_id && x.clerk_id == u)
      (fun x => { x with status := "cancelled", updated_at := now }) db.activities
      (fun x hx => hx) hfind
  · -- Update: the whitelisted $set overwrites status with the supplied value
    intro db activity_id u now flds db' s hs h
    unfold update_activity at h
    split at h
    · exact absurd h (by simp)
    · rename_i a hfind
      by_cases hc : a.clerk_id ≠ u
      · rw [if_pos hc] at h
        cases h
      · rw [if_neg hc] at h
        injection h with h
        subst h
        refine ⟨a, hfind, ?_, ?_⟩
        · have hfind2 : db.activities.find? (fun x => x.id == activity_id) = some a := hfind
          exact mem_of_find?_updateFirst (fun x => x.id == activity_id)
            (applyUpdates flds now) db.activities (fun x hx => hx) hfind2
        · simp [applyUpdates, hs]

/-- Closed instance of `status_transition_spec`: its Cancel clause applied to
the concrete store holding only a completed activity. -/
theorem status_transition_spec_witness :
    { completedActivity with status := "cancelled", updated_at := 7 }
      ∈ (cancel_activity completedDb 1 "A" 7).1.activities :=
  status_transition_spec.2.2.2.1 completedDb 1 "A" 7 completedActivity (by decide)

/-! ### C4: respond and terminal connection states -/

/-- Full input/output characterization of `respond_to_connection`:
it fails (None) iff the connection is missing or the responder is not the
recorded recipient, and otherwise applies `respondSet` to the stored document
regardless of the document's current status. -/
theorem respond_characterization (db : DB) (connection_id : Nat) (u : ClerkId)
    (accept : Bool) (now : Time) :
    (respond_to_connection db connection_id u accept now = none ↔
      findConnection db connection_id = none ∨
        ∃ c, findConnection db connection_id = some c ∧ c.to_clerk_id ≠ u)
    ∧ (∀ c, findConnection db connection_id = some c → c.to_clerk_id = u →
        respond_to_connection db connection_id u accept now =
          some ({ db with
                  connections := updateFirst (fun x => x.id == connection_id)
                    (respondSet accept now) db.connections },
                respondSet accept now c)) := by
  have hsucc : ∀ c, findConnection db connection_id = some c → c.to_clerk_id = u →
      respond_to_connection db connection_id u accept now =
        some ({ db with
                connections := updateFirst (fun x => x.id == connection_id)
                  (respondSet accept now) db.connections },
              respondSet accept now c) := by
    intro c hf he
    have hf' : db.connections.find? (fun x => x.id == connection_id) = some c := hf
    have h2 := find?_updateFirst (fun x => x.id == connection_id)
      (respondSet accept now) db.connections (fun x hx => hx) hf'
    have h3 : findConnection
        { db with
          connections := updateFirst (fun x => x.id == connection_id)
            (respondSet accept now) db.connections } connection_id =
        some (respondSet accept now c) := h2
    simp only [respond_to_connection, hf]
    rw [if_neg (by simp [he])]
    simp only [h3]
  refine ⟨⟨?_, ?_⟩, hsucc⟩
  · intro h
    cases hf : findConnection db connection_id with
    | none => exact Or.inl rfl
    | some c =>
      by_cases he : c.to_clerk_id = u
      · rw [hsucc c hf he] at h
        cases h
      · exact Or.inr ⟨c, rfl, he⟩
  · intro h
    rcases h with h | ⟨c, hf, hne⟩
    · simp [respond_to_connection, h]
    · simp only [respond_to_connection, hf]
      rw [if_pos hne]

/-- A connection already in the terminal status "declined" (recipient "A"). -/
def declinedConnection : Connection :=
  { id := 1, from_clerk_id := "B", to_clerk_id := "A", activity_id := 1,
    status := "declined", chat_enabled := false, messages := [],
    created_at := 0, updated_at := 0 }

def declinedDb : DB :=
  { activities := [], connections := [declinedConnection],
    nextActivityId := 0, nextConnectionId := 2 }

/-- **C4 counterexample.** `respond_to_connection` carries no guard on the
current status: the recipient calling respond(accept=true) on an
already-*declined* connection flips its status to "accepted" and turns
`chat_enabled` on — "declined" is not terminal. -/
theorem respond_flips_declined_connection :
    declinedConnection.status = "declined"
    ∧ respond_to_connection declinedDb 1 "A" true 9 =
        some ({ declinedDb with
                connections := [{ declinedConnection with
                                  status := "accepted"
                                  chat_enabled := true
                                  updated_at := 9 }] },
              { declinedConnection with
                status := "accepted"
                chat_enabled := true
                updated_at := 9 }) := by
  decide

/-- **C4 (amended).** A Respond call by the recorded recipient always
succeeds and overwrites `status` (to "accepted"/"declined" per the accept
flag) and `chat_enabled` (to the flag) whatever the connection's current
status is: accepted and declined are not terminal, since a further Respond
call by the recipient changes them again. -/
theorem respond_terminal_spec (db : DB) (connection_id : Nat) (u : ClerkId)
    (accept : Bool) (now : Time) :
    ∀ c, findConnection db connection_id = some c → c.to_clerk_id = u →
      respond_to_connection db connection_id u accept now =
        some ({ db with
                connections := updateFirst (fun x => x.id == connection_id)
                  (respondSet accept now) db.connections },
              respondSet accept now c)
      ∧ (respondSet accept now c).status = (if accept then "accepted" else "declined")
      ∧ (respondSet accept now c).chat_enabled = accept := by
  intro c hf he
  exact ⟨(respond_characterization db connection_id u accept now).2 c hf he, rfl, rfl⟩

/-- Closed instance of `respond_terminal_spec`: re-responding accept=true on
the concrete declined connection. -/
theorem respond_terminal_spec_witness :
    respond_to_connection declinedDb 1 "A" true 9 =
      some ({ declinedDb with
              connections := updateFirst (fun x => x.id == 1)
                (respondSet true 9) declinedDb.connections },
            respondSet true 9 declinedConnection)
    ∧ (respondSet true 9 declinedConnection).status = (if true then "accepted" else "declined")
    ∧ (respondSet true 9 declinedConnection).chat_enabled = true :=
  respond_terminal_spec declinedDb 1 "A" true 9 declinedConnection (by decide) (by decide)

/-! ### C6: idempotent, symmetric connection creation -/

theorem connMatches_comm (A B : ClerkId) (aid : Nat) (c : Connection) :
    connMatches A B aid c = connMatches B A aid c := by
  simp only [connMatches, Bool.or_comm]

theorem connMatches_newConnection (db : DB) (A B : ClerkId) (aid : Nat) (now : Time) :
    connMatches A B aid (newConnection db A B aid now) = true := by
  simp [connMatches, newConnection]

theorem ccr_of_found (db : DB) (A B : ClerkId) (aid : Nat) (now : Time)
    (c : Connection) (hf : db.connections.find? (connMatches A B aid) = some c) :
    create_connection_request db A B aid now = (db, c) := by
  simp only [create_connection_request, hf]

theorem ccr_of_not_found (db : DB) (A B : ClerkId) (aid : Nat) (now : Time)
    (hf : db.connections.find? (connMatches A B aid) = none) :
    create_connection_request db A B aid now =
      ({ db with
         connections := db.connections ++ [newConnection db A B aid now]
         nextConnectionId := db.nextConnectionId + 1 },
       newConnection db A B aid now) := by
  simp only [create_connection_request, hf]

/-- **C6.** `create_connection_request` is an idempotent, symmetric create:
an existing connection for the unordered pair and activity is returned
unchanged (store untouched); otherwise a fresh connection is inserted with
status "pending", chat disabled and an empty message log; and a second call —
in the same or in the swapped orientation — returns exactly the first call's
connection (same ID) and leaves the store as the first call left it. -/
theorem ensure_connection_spec :
    (∀ db A B aid now c, db.connections.find? (connMatches A B aid) = some c →
        create_connection_request db A B aid now = (db, c))
    ∧ (∀ db A B aid now, (∀ c ∈ db.connections, ¬ connMatches A B aid c = true) →
        create_connection_request db A B aid now =
          ({ db with
             connections := db.connections ++ [newConnection db A B aid now]
             nextConnectionId := db.nextConnectionId + 1 },
           newConnection db A B aid now)
          ∧ (newConnection db A B aid now).status = "pending"
          ∧ (newConnection db A B aid now).chat_enabled = false
          ∧ (newConnection db A B aid now).messages = [])
    ∧ (∀ db A B aid now now2,
        create_connection_request (create_connection_request db A B aid now).1 A B aid now2 =
          create_connection_request db A B aid now
        ∧ create_connection_request (create_connection_request db A B aid now).1 B A aid now2 =
          create_connection_request db A B aid now) := by
  refine ⟨ccr_of_found, ?_, ?_⟩
  · intro db A B aid now h
    exact ⟨ccr_of_not_found db A B aid now (List.find?_eq_none.mpr h), rfl, rfl, rfl⟩
  · intro db A B aid now now2
    cases hf : db.connections.find? (connMatches A B aid) with
    | some c =>
      rw [ccr_of_found db A B aid now c hf]
      have hf' : db.connections.find? (connMatches B A aid) = some c := by
        rw [← find?_congr_pred (connMatches A B aid) (connMatches B A aid)
          db.connections (connMatches_comm A B aid)]
        exact hf
      exact ⟨ccr_of_found db A B aid now2 c hf, ccr_of_found db B A aid now2 c hf'⟩
    | none =>
      rw [ccr_of_not_found db A B aid now hf]
      have hsingleAB : [newConnection db A B aid now].find? (connMatches A B aid) =
          some (newConnection db A B aid now) :=
        List.find?_cons_of_pos _ (connMatches_newConnection db A B aid now)
      have hsingleBA : [newConnection db A B aid now].find? (connMatches B A aid) =
          some (newConnection db A B aid now) := by
        refine List.find?_cons_of_pos _ ?_
        rw [← connMatches_comm]
        exact connMatches_newConnection db A B aid now
      have hfBA : db.connections.find? (connMatches B A aid) = none := by
        rw [← find?_congr_pred (connMatches A B aid) (connMatches B A aid)
          db.connections (connMatches_comm A B aid)]
        exact hf
      have happAB : (db.connections ++ [newConnection db A B aid now]).find?
          (connMatches A B aid) = some (newConnection db A B aid now) := by
        rw [List.find?_append, hf, hsingleAB]
        rfl
      have happBA : (db.connections ++ [newConnection db A B aid now]).find?
          (connMatches B A aid) = some (newConnection db A B aid now) := by
        rw [List.find?_append, hfBA, hsingleBA]
        rfl
      exact ⟨ccr_of_found _ A B aid now2 _ happAB, ccr_of_found _ B A aid now2 _ happBA⟩

def emptyConnDb : DB :=
  { activities := [], connections := [], nextActivityId := 0, nextConnectionId := 0 }

/-- Closed instance of `ensure_connection_spec`: two successive calls on an
initially empty store, in both orientations, return the first call's result. -/
theorem ensure_connection_spec_witness :
    create_connection_request (create_connection_request emptyConnDb "A" "B" 1 3).1 "A" "B" 1 4 =
      create_connection_request emptyConnDb "A" "B" 1 3
    ∧ create_connection_request (create_connection_request emptyConnDb "A" "B" 1 3).1 "B" "A" 1 4 =
      create_connection_request emptyConnDb "A" "B" 1 3 :=
  ensure_connection_spec.2.2 emptyConnDb "A" "B" 1 3 4

/-! ### C8: the expiry sweep -/

/-- **C8.** `cleanup_expired_activities` completes exactly the active expired
activities: each active activity with `expires_at < now` reappears with
status "completed", every other activity is untouched, the returned count is
the number of matching documents, and — provided nothing expires between the
two runs — a second sweep reports 0 affected. -/
theorem cleanup_expired_spec (db : DB) (now now2 : Time)
    (hexp : ∀ a ∈ db.activities, a.expires_at < now2 → a.expires_at < now) :
    (∀ a ∈ db.activities, a.status = "active" → a.expires_at < now →
        { a with status := "completed" } ∈ (cleanup_expired_activities db now).1.activities)
    ∧ (∀ a ∈ db.activities, ¬(a.status = "active" ∧ a.expires_at < now) →
        a ∈ (cleanup_expired_activities db now).1.activities)
    ∧ (cleanup_expired_activities db now).2 =
        (db.activities.filter (expiredFilter now)).length
    ∧ (cleanup_expired_activities (cleanup_expired_activities db now).1 now2).2 = 0 := by
  refine ⟨?_, ?_, rfl, ?_⟩
  · intro a ha hst hlt
    have hf : expiredFilter now a = true := by
      simp [expiredFilter, hst, hlt]
    exact List.mem_map.mpr ⟨a, ha, by rw [if_pos hf]⟩
  · intro a ha hn
    have hf : expiredFilter now a = false := by
      simp only [expiredFilter, Bool.and_eq_false_iff]
      rcases Decidable.not_and_iff_or_not.mp hn with h | h
      · exact Or.inl (by simpa using h)
      · exact Or.inr (by simpa using h)
    exact List.mem_map.mpr ⟨a, ha, by rw [if_neg (by simp [hf])]⟩
  · have hnone : ∀ a' ∈ (cleanup_expired_activities db now).1.activities,
        ¬ expiredFilter now2 a' = true := by
      intro a' ha'
      rcases List.mem_map.mp ha' with ⟨a, ha, hfa⟩
      by_cases hf : expiredFilter now a = true
      · rw [if_pos hf] at hfa
        subst hfa
        simp [expiredFilter]
      · rw [if_neg hf] at hfa
        subst hfa
        intro h2
        apply hf
        have h2' := (Bool.and_eq_true _ _).mp h2
        have hlt2 : a.expires_at < now2 := of_decide_eq_true h2'.2
        simp [expiredFilter, h2'.1, hexp a ha hlt2]
    have hfil : ((cleanup_expired_activities db now).1.activities.filter
        (expiredFilter now2)) = [] := List.filter_eq_nil_iff.mpr hnone
    have hcount : (cleanup_expired_activities (cleanup_expired_activities db now).1 now2).2 =
        ((cleanup_expired_activities db now).1.activities.filter (expiredFilter now2)).length :=
      rfl
    rw [hcount, hfil]
    rfl

/-- An active activity that expired at time 5. -/
def sweepActivity : Activity :=
  { id := 1, clerk_id := "A", activity_type := "cafe", lat := 0, lon := 0,
    place_name := none, scheduled_time := 0, mood := none, description := none,
    max_participants := 5, participants := ["A"], participant_count := 1,
    is_public := true, status := "active", created_at := 0, updated_at := 0,
    expires_at := 5 }

/-- A store holding one active activity that expired before time 10. -/
def sweepDb : DB :=
  { activities := [sweepActivity], connections := [],
    nextActivityId := 2, nextConnectionId := 0 }

/-- Closed instance of `cleanup_expired_spec`: on the concrete store the first
sweep affects the one expired activity and the immediate second sweep affects
none. -/
theorem cleanup_expired_spec_witness :
    (cleanup_expired_activities sweepDb 10).2 =
      (sweepDb.activities.filter (expiredFilter 10)).length
    ∧ (cleanup_expired_activities (cleanup_expired_activities sweepDb 10).1 10).2 = 0 :=
  ⟨(cleanup_expired_spec sweepDb 10 10 (fun _ _ h => h)).2.2.1,
   (cleanup_expired_spec sweepDb 10 10 (fun _ _ h => h)).2.2.2⟩

/-! ### C5: join error conditions and success effects -/

/-- **C5.** Input/output specification of sequential `join_activity`:
it reports NotFound exactly when no activity has the id; NotActive exactly
when the activity exists with a non-"active" status; AlreadyJoined exactly
when the activity is active and the user is already a participant;
CapacityExceeded exactly when the activity is active, the user is not a
participant, and `participant_count >= max_participants`; and otherwise it
succeeds, appending the user to `participants`, incrementing
`participant_count` by one, bumping `updated_at`, and ensuring a connection
between the joining user and the activity's owner scoped to this activity
(created pending when none existed, reused otherwise). -/
theorem join_activity_spec (db : DB) (activity_id : Nat) (u : ClerkId) (now : Time) :
    (join_activity db activity_id u now = .notFound ↔
      findActivity db activity_id = none)
    ∧ (join_activity db activity_id u now = .notActive ↔
        ∃ a, findActivity db activity_id = some a ∧ a.status ≠ "active")
    ∧ (join_activity db activity_id u now = .alreadyJoined ↔
        ∃ a, findActivity db activity_id = some a ∧ a.status = "active" ∧
          u ∈ a.participants)
    ∧ (join_activity db activity_id u now = .capacityExceeded ↔
        ∃ a, findActivity db activity_id = some a ∧ a.status = "active" ∧
          u ∉ a.participants ∧ a.max_participants ≤ a.participant_count)
    ∧ (∀ a, findActivity db activity_id = some a → a.status = "active" →
        u ∉ a.participants → a.participant_count < a.max_participants →
        ∃ db' a', join_activity db activity_id u now = .ok db'
          ∧ findActivity db' activity_id = some a'
          ∧ a'.participants = a.participants ++ [u]
          ∧ a'.participant_count = a.participant_count + 1
          ∧ a'.updated_at = now
          ∧ ∃ c, c ∈ db'.connections ∧ connMatches u a.clerk_id activity_id c = true
            ∧ ((∀ c0 ∈ db.connections, ¬ connMatches u a.clerk_id activity_id c0 = true) →
                c.status = "pending" ∧ c.chat_enabled = false)) := by
  cases hf : findActivity db activity_id with
  | none =>
    have hj : join_activity db activity_id u now = .notFound := by
      simp only [join_activity, hf]
    refine ⟨by simp [hj, hf], by simp [hj, hf], by simp [hj, hf], by simp [hj, hf], ?_⟩
    intro a ha
    simp at ha
  | some a =>
    by_cases hst : a.status = "active"
    · by_cases hmem : u ∈ a.participants
      · have hc : join_check a u = some JoinResult.alreadyJoined := by
          unfold join_check
          rw [if_neg (by simp [hst]), if_pos hmem]
        have hj : join_activity db activity_id u now = .alreadyJoined := by
          simp only [join_activity, hf, hc]
        refine ⟨by simp [hj, hf], by simp [hj, hf, hst], ?_, by simp [hj, hf, hmem], ?_⟩
        · simp only [hj, hf, true_iff]
          exact ⟨a, rfl, hst, hmem⟩
        · intro a' ha'
          cases ha'
          intro _ hm _
          exact absurd hmem hm
      · by_cases hcap : a.participant_count ≥ a.max_participants
        · have hc : join_check a u = some JoinResult.capacityExceeded := by
            unfold join_check
            rw [if_neg (by simp [hst]), if_neg hmem, if_pos hcap]
          have hj : join_activity db activity_id u now = .capacityExceeded := by
            simp only [join_activity, hf, hc]
          refine ⟨by simp [hj, hf], by simp [hj, hf, hst], by simp [hj, hf, hmem], ?_, ?_⟩
          · simp only [hj, hf, true_iff]
            exact ⟨a, rfl, hst, hmem, hcap⟩
          · intro a' ha'
            cases ha'
            intro _ _ hlt
            exact absurd hcap (not_le.mpr hlt)
        · have hc : join_check a u = none := by
            unfold join_check
            rw [if_neg (by simp [hst]), if_neg hmem, if_neg hcap]
          have hj : join_activity db activity_id u now =
              .ok (create_connection_request (join_write db activity_id u now)
                    u a.clerk_id activity_id now).1 := by
            simp only [join_activity, hf, hc]
          refine ⟨by simp [hj, hf], by simp [hj, hf, hst], by simp [hj, hf, hmem],
            ?_, ?_⟩
          · simp [hj, hf, hmem]
            exact fun _ => lt_of_not_ge hcap
          intro a' ha' _ _ _
          cases ha'
          have hf' : db.activities.find? (fun x => x.id == activity_id) = some a := hf
          have hup := find?_updateFirst (fun x => x.id == activity_id)
            (fun x =>
              { x with
                participants := x.participants ++ [u]
                participant_count := x.participant_count + 1
                updated_at := now }) db.activities (fun x hx => hx) hf'
          refine ⟨(create_connection_request (join_write db activity_id u now)
                    u a.clerk_id activity_id now).1,
                  { a with
                    participants := a.participants ++ [u]
                    participant_count := a.participant_count + 1
                    updated_at := now }, hj, ?_, rfl, rfl, rfl, ?_⟩
          · have : findActivity (create_connection_request
                (join_write db activity_id u now) u a.clerk_id activity_id now).1
                activity_id =
                findActivity (join_write db activity_id u now) activity_id := by
              unfold findActivity
              rw [create_connection_request_activities]
            rw [this]
            exact hup
          · cases hcf : (join_write db activity_id u now).connections.find?
                (connMatches u a.clerk_id activity_id) with
            | some c =>
              rw [ccr_of_found _ u a.clerk_id activity_id now c hcf]
              exact ⟨c, List.mem_of_find?_eq_some hcf, List.find?_some hcf,
                fun hno => absurd (List.find?_some hcf)
                  (hno c (List.mem_of_find?_eq_some hcf))⟩
            | none =>
              rw [ccr_of_not_found _ u a.clerk_id activity_id now hcf]
              refine ⟨newConnection (join_write db activity_id u now)
                u a.clerk_id activity_id now, ?_, ?_, fun _ => ⟨rfl, rfl⟩⟩
              · exact List.mem_append_right _ (List.mem_singleton.mpr rfl)
              · exact connMatches_newConnection _ u a.clerk_id activity_id now
    · have hc : join_check a u = some JoinResult.notActive := by
        unfold join_check
        rw [if_pos (by simp [hst])]
      have hj : join_activity db activity_id u now = .notActive := by
        simp only [join_activity, hf, hc]
      refine ⟨by simp [hj, hf], ?_, by simp [hj, hf, hst], by simp [hj, hf, hst], ?_⟩
      · simp only [hj, hf, true_iff]
        exact ⟨a, rfl, hst⟩
      · intro a' ha' hst'
        cases ha'
        exact absurd hst' hst

/-- An active activity with a free slot (capacity 5, one participant). -/
def joinableActivity : Activity :=
  { id := 1, clerk_id := "A", activity_type := "cafe", lat := 0, lon := 0,
    place_name := none, scheduled_time := 0, mood := none, description := none,
    max_participants := 5, participants := ["A"], participant_count := 1,
    is_public := true, status := "active", created_at := 0, updated_at := 0,
    expires_at := 14400 }

def joinableDb : DB :=
  { activities := [joinableActivity], connections := [],
    nextActivityId := 2, nextConnectionId := 0 }

/-- Closed instance of `join_activity_spec`: its success clause on a concrete
store with a free slot. -/
theorem join_activity_spec_witness :
    ∃ db' a', join_activity joinableDb 1 "B" 9 = .ok db'
      ∧ findActivity db' 1 = some a'
      ∧ a'.participants = joinableActivity.participants ++ ["B"]
      ∧ a'.participant_count = joinableActivity.participant_count + 1
      ∧ a'.updated_at = 9
      ∧ ∃ c, c ∈ db'.connections ∧ connMatches "B" joinableActivity.clerk_id 1 c = true
        ∧ ((∀ c0 ∈ joinableDb.connections,
              ¬ connMatches "B" joinableActivity.clerk_id 1 c0 = true) →
            c.status = "pending" ∧ c.chat_enabled = false) :=
  (join_activity_spec joinableDb 1 "B" 9).2.2.2.2 joinableActivity (by decide)
    (by decide) (by decide) (by decide)

/-! ### C9: participant_count equals the participant list length -/

/-- What `join_check a u = none` says about the snapshot. -/
theorem join_check_none {a : Activity} {u : ClerkId} (h : join_check a u = none) :
    a.status = "active" ∧ u ∉ a.participants ∧
      a.participant_count < a.max_participants := by
  by_cases h1 : a.status = "active"
  · by_cases h2 : u ∈ a.participants
    · unfold join_check at h
      rw [if_neg (by simp [h1]), if_pos h2] at h
      simp at h
    · by_cases h3 : a.participant_count ≥ a.max_participants
      · unfold join_check at h
        rw [if_neg (by simp [h1]), if_neg h2, if_pos h3] at h
        simp at h
      · exact ⟨h1, h2, lt_of_not_ge h3⟩
  · unfold join_check at h
    rw [if_pos (by simp [h1])] at h
    simp at h

/-- A successful `join_activity` call decomposes into the snapshot read, the
passing checks, the participant write and the connection ensure. -/
theorem join_activity_ok {db : DB} {activity_id : Nat} {u : ClerkId} {now : Time}
    {db' : DB} (h : join_activity db activity_id u now = .ok db') :
    ∃ a, findActivity db activity_id = some a ∧ join_check a u = none ∧
      db' = (create_connection_request (join_write db activity_id u now)
              u a.clerk_id activity_id now).1 := by
  unfold join_activity at h
  split at h
  · exact absurd h (by simp)
  · rename_i a hfind
    split at h
    · rename_i e hchk
      subst h
      unfold join_check at hchk
      split_ifs at hchk <;> simp_all
    · rename_i hchk
      injection h with h
      exact ⟨a, hfind, hchk, h.symm⟩

/-- The invariant of C9: `participant_count` equals the length of
`participants`, and the list is duplicate-free (needed because `$pull`
removes every copy while `$inc` subtracts exactly one). -/
def participantsInv (a : Activity) : Prop :=
  a.participant_count = (a.participants.length : Int) ∧ a.participants.Nodup

def dbParticipantsInv (db : DB) : Prop :=
  ∀ a ∈ db.activities, participantsInv a

/-- **C9.** Create establishes `participant_count = |participants|` (the new
activity starts with count 1 and exactly the creator listed), and Join and
Leave preserve it on every activity of the store. -/
theorem participant_count_spec :
    (∀ db clerk_id activity_type lat lon place_name scheduled_time mood
        description max_participants is_public now db' a,
        create_activity db clerk_id activity_type lat lon place_name
          scheduled_time mood description max_participants is_public now = .ok db' a →
        dbParticipantsInv db → dbParticipantsInv db')
    ∧ (∀ db activity_id u now db', join_activity db activity_id u now = .ok db' →
        dbParticipantsInv db → dbParticipantsInv db')
    ∧ (∀ db activity_id u now b db',
        leave_activity db activity_id u now = .result b db' →
        dbParticipantsInv db → dbParticipantsInv db') := by
  refine ⟨?_, ?_, ?_⟩
  · -- Create: the fresh document has participants = [creator], count = 1
    intro db clerk_id activity_type lat lon place_name scheduled_time mood
      description max_participants is_public now db' a h hinv
    unfold create_activity at h
    split_ifs at h
    · cases h
      intro a' ha'
      rcases List.mem_append.mp ha' with h' | h'
      · exact hinv a' h'
      · rw [List.mem_singleton] at h'
        subst h'
        exact ⟨by simp, List.nodup_singleton _⟩
  · -- Join: one user is appended and the count incremented by one
    intro db activity_id u now db' h hinv
    rcases join_activity_ok h with ⟨a, hfind, hchk, rfl⟩
    rcases join_check_none hchk with ⟨hst, hmem, hlt⟩
    intro a' ha'
    rw [create_connection_request_activities] at ha'
    have ha2 : a' ∈ updateFirst (fun x => x.id == activity_id)
        (fun x =>
          { x with
            participants := x.participants ++ [u]
            participant_count := x.participant_count + 1
            updated_at := now }) db.activities := ha'
    rcases mem_updateFirst ha2 with h' | ⟨x, hx, rfl⟩
    · exact hinv a' h'
    · have hfind' : db.activities.find? (fun y => y.id == activity_id) = some a := hfind
      rw [hx] at hfind'
      have hxa : x = a := Option.some.inj hfind'
      subst hxa
      have hmemdb : x ∈ db.activities := List.mem_of_find?_eq_some hx
      rcases hinv x hmemdb with ⟨hcount, hnodup⟩
      constructor
      · simp only [List.length_append, List.length_singleton]
        omega
      · simp [List.nodup_append, hnodup, hmem]
  · -- Leave: every copy of one present user is pulled and the count decremented
    intro db activity_id u now b db' h hinv
    unfold leave_activity at h
    split at h
    · cases h
      exact hinv
    · rename_i a hfind
      by_cases hc : (a.clerk_id == u) = true
      · rw [if_pos hc] at h
        cases h
      · rw [if_neg hc] at h
        by_cases hm : u ∈ a.participants
        · rw [if_neg (not_not_intro hm)] at h
          cases h
          intro a' ha'
          have ha2 : a' ∈ updateFirst (fun x => x.id == activity_id)
              (fun x =>
                { x with
                  participants := x.participants.filter (fun p => p != u)
                  participant_count := x.participant_count - 1
                  updated_at := now }) db.activities := ha'
          rcases mem_updateFirst ha2 with h' | ⟨x, hx, rfl⟩
          · exact hinv a' h'
          · have hfind' : db.activities.find? (fun y => y.id == activity_id) = some a := hfind
            rw [hx] at hfind'
            have hxa : x = a := Option.some.inj hfind'
            subst hxa
            have hmemdb : x ∈ db.activities := List.mem_of_find?_eq_some hx
            rcases hinv x hmemdb with ⟨hcount, hnodup⟩
            constructor
            · have hfl : (x.participants.filter (fun p => p != u)).length =
                  x.participants.length - 1 := by
                rw [← List.Nodup.erase_eq_filter hnodup u]
                exact List.length_erase_of_mem hm
              have hpos : 0 < x.participants.length := List.length_pos_of_mem hm
              simp only [hfl]
              omega
            · exact hnodup.filter _
        · rw [if_pos hm] at h
          cases h
          exact hinv

/-- Closed instance of `participant_count_spec`: the Join clause applied to
the concrete joinable store. -/
theorem participant_count_spec_witness :
    dbParticipantsInv (create_connection_request
      (join_write joinableDb 1 "B" 9) "B" "A" 1 9).1 :=
  participant_count_spec.2.1 joinableDb 1 "B" 9 _ (by decide)
    (by unfold dbParticipantsInv participantsInv; decide)

/-! ### C7: send_message error conditions and success effect -/

/-- The success computation of `send_message`: connection found, chat
enabled, sender a party. -/
theorem send_message_ok (db : DB) (connection_id : Nat) (u : ClerkId)
    (m : String) (now : Time) (c : Connection)
    (hf : findConnection db connection_id = some c)
    (hchat : c.chat_enabled = true)
    (hparty : u = c.from_clerk_id ∨ u = c.to_clerk_id) :
    send_message db connection_id u m now =
      .ok { db with
            connections := updateFirst (fun x => x.id == connection_id)
              (sendPush u m now) db.connections } := by
  have hp : ¬(u ≠ c.from_clerk_id ∧ u ≠ c.to_clerk_id) := by
    rcases hparty with h | h <;> simp [h]
  simp only [send_message, hf]
  rw [if_neg (by simp [hchat]), if_neg hp]

/-- **C7.** `send_message` reports NotFound exactly when no connection has the
id; ChatNotEnabled exactly when the connection exists with chat disabled (the
chat check precedes the party check); Unauthorized exactly when chat is
enabled but the sender is neither party; otherwise it succeeds, appending
`{sender, text, now}` to the message log and bumping `updated_at`. A freshly
created (hence pending, chat-disabled) connection rejects messages with
ChatNotEnabled, and immediately after the recipient responds accept=true the
requester's message succeeds. -/
theorem send_message_spec (db : DB) (connection_id : Nat) (u : ClerkId)
    (m : String) (now : Time) :
    (send_message db connection_id u m now = .notFound ↔
      findConnection db connection_id = none)
    ∧ (send_message db connection_id u m now = .chatNotEnabled ↔
        ∃ c, findConnection db connection_id = some c ∧ c.chat_enabled = false)
    ∧ (send_message db connection_id u m now = .unauthorized ↔
        ∃ c, findConnection db connection_id = some c ∧ c.chat_enabled = true ∧
          u ≠ c.from_clerk_id ∧ u ≠ c.to_clerk_id)
    ∧ (∀ c, findConnection db connection_id = some c → c.chat_enabled = true →
        u = c.from_clerk_id ∨ u = c.to_clerk_id →
        ∃ db' c', send_message db connection_id u m now = .ok db'
          ∧ findConnection db' connection_id = some c'
          ∧ c'.messages = c.messages ++ [⟨u, m, now⟩]
          ∧ c'.updated_at = now)
    ∧ (∀ db0 A B aid t,
        (∀ c ∈ db0.connections, ¬ connMatches A B aid c = true) →
        (∀ c ∈ db0.connections, c.id ≠ db0.nextConnectionId) →
        (newConnection db0 A B aid t).status = "pending" ∧
        send_message (create_connection_request db0 A B aid t).1
          (newConnection db0 A B aid t).id A m now = .chatNotEnabled)
    ∧ (∀ dbr cid r t c' db1,
        respond_to_connection dbr cid r true t = some (db1, c') →
        ∃ db2, send_message db1 cid c'.from_clerk_id m now = .ok db2) := by
  refine ⟨?_, ?_, ?_, ?_, ?_, ?_⟩
  · -- NotFound characterization
    cases hf : findConnection db connection_id with
    | none => simp [send_message, hf]
    | some c =>
      by_cases hchat : c.chat_enabled = true
      · by_cases hp : u = c.from_clerk_id ∨ u = c.to_clerk_id
        · rw [send_message_ok db connection_id u m now c hf hchat hp]
          simp [hf]
        · have hj : send_message db connection_id u m now = .unauthorized := by
            simp only [send_message, hf]
            rw [if_neg (by simp [hchat]), if_pos (by tauto)]
          simp [hj, hf]
      · have hj : send_message db connection_id u m now = .chatNotEnabled := by
          simp only [send_message, hf]
          rw [if_pos (by simp [Bool.not_eq_true] at hchat; simp [hchat])]
        simp [hj, hf]
  · -- ChatNotEnabled characterization
    cases hf : findConnection db connection_id with
    | none => simp [send_message, hf]
    | some c =>
      by_cases hchat : c.chat_enabled = true
      · by_cases hp : u = c.from_clerk_id ∨ u = c.to_clerk_id
        · rw [send_message_ok db connection_id u m now c hf hchat hp]
          simp [hf, hchat]
        · have hj : send_message db connection_id u m now = .unauthorized := by
            simp only [send_message, hf]
            rw [if_neg (by simp [hchat]), if_pos (by tauto)]
          simp [hj, hf, hchat]
      · have hfalse : c.chat_enabled = false := by
          simpa using hchat
        have hj : send_message db connection_id u m now = .chatNotEnabled := by
          simp only [send_message, hf]
          rw [if_pos (by simp [hfalse])]
        simp only [hj, hf, true_iff]
        exact ⟨c, rfl, hfalse⟩
  · -- Unauthorized characterization
    cases hf : findConnection db connection_id with
    | none => simp [send_message, hf]
    | some c =>
      by_cases hchat : c.chat_enabled = true
      · by_cases hp : u = c.from_clerk_id ∨ u = c.to_clerk_id
        · rw [send_message_ok db connection_id u m now c hf hchat hp]
          constructor
          · intro h
            cases h
          · rintro ⟨c0, hc0, _, hfrom, hto⟩
            injection hc0 with hc0
            subst hc0
            rcases hp with h | h
            · exact absurd h hfrom
            · exact absurd h hto
        · have hj : send_message db connection_id u m now = .unauthorized := by
            simp only [send_message, hf]
            rw [if_neg (by simp [hchat]), if_pos (by tauto)]
          simp only [hj, hf, true_iff]
          push_neg at hp
          exact ⟨c, rfl, hchat, hp.1, hp.2⟩
      · have hfalse : c.chat_enabled = false := by
          simpa using hchat
        have hj : send_message db connection_id u m now = .chatNotEnabled := by
          simp only [send_message, hf]
          rw [if_pos (by simp [hfalse])]
        simp [hj, hf, hfalse]
  · -- success effect
    intro c hf hchat hp
    have hf' : db.connections.find? (fun x => x.id == connection_id) = some c := hf
    have hup := find?_updateFirst (fun x => x.id == connection_id)
      (sendPush u m now) db.connections (fun x hx => hx) hf'
    exact ⟨_, sendPush u m now c, send_message_ok db connection_id u m now c hf hchat hp,
      hup, rfl, rfl⟩
  · -- a freshly created connection is pending and rejects messages
    intro db0 A B aid t hnomatch hfresh
    refine ⟨rfl, ?_⟩
    rw [ccr_of_not_found db0 A B aid t (List.find?_eq_none.mpr hnomatch)]
    have hfc : findConnection
        { db0 with
          connections := db0.connections ++ [newConnection db0 A B aid t]
          nextConnectionId := db0.nextConnectionId + 1 }
        (newConnection db0 A B aid t).id = some (newConnection db0 A B aid t) := by
      unfold findConnection
      rw [List.find?_append]
      have hpre : db0.connections.find?
          (fun x => x.id == (newConnection db0 A B aid t).id) = none := by
        refine List.find?_eq_none.mpr ?_
        intro c hc
        simpa [newConnection] using hfresh c hc
      rw [hpre, Option.none_or]
      simp
    simp only [send_message, hfc]
    rw [if_pos (by simp [newConnection])]
  · -- after respond(accept=true), the requester can message
    intro dbr cid r t c' db1 h
    cases hf : findConnection dbr cid with
    | none =>
      rw [((respond_characterization dbr cid r true t).1.mpr (Or.inl hf))] at h
      cases h
    | some c =>
      by_cases he : c.to_clerk_id = r
      · rw [(respond_characterization dbr cid r true t).2 c hf he] at h
        injection h with h
        injection h with h1 h2
        subst h1
        subst h2
        have hf2 : dbr.connections.find? (fun x => x.id == cid) = some c := hf
        have hup := find?_updateFirst (fun x => x.id == cid)
          (respondSet true t) dbr.connections (fun x hx => hx) hf2
        refine ⟨_, send_message_ok _ cid _ m now (respondSet true t c) hup rfl ?_⟩
        exact Or.inl rfl
      · rw [((respond_characterization dbr cid r true t).1.mpr
          (Or.inr ⟨c, hf, he⟩))] at h
        cases h

/-- An accepted, chat-enabled connection requested by "B" towards "A". -/
def chatConnection : Connection :=
  { id := 1, from_clerk_id := "B", to_clerk_id := "A", activity_id := 1,
    status := "accepted", chat_enabled := true, messages := [],
    created_at := 0, updated_at := 0 }

def chatDb : DB :=
  { activities := [], connections := [chatConnection],
    nextActivityId := 0, nextConnectionId := 2 }

/-- Closed instance of `send_message_spec`: its success clause on a concrete
accepted connection. -/
theorem send_message_spec_witness :
    ∃ db' c', send_message chatDb 1 "B" "hi" 9 = .ok db'
      ∧ findConnection db' 1 = some c'
      ∧ c'.messages = chatConnection.messages ++ [⟨"B", "hi", 9⟩]
      ∧ c'.updated_at = 9 :=
  (send_message_spec chatDb 1 "B" "hi" 9).2.2.2.1 chatConnection (by decide)
    (by decide) (Or.inl (by decide))

/-! ### C10: only the owner can answer the join-created connection -/

/-- **C10.** When a join succeeds and no connection yet links the joining user
and the owner for this activity, the connection created as its side effect
records the joining user as `from_clerk_id` (requester) and the activity's
owner as `to_clerk_id` (recipient); the joiner is never the owner, every
successful Respond on that connection is by the owner, and the joining user's
own Respond attempts all fail. (The freshness hypotheses say the ids of the
stored connections do not collide with the next generated id, and that no
connection for this pair and activity pre-exists — both hold of stores built
by this engine.) -/
theorem join_connection_recipient_spec (db : DB) (activity_id : Nat) (u : ClerkId)
    (now : Time) (a : Activity)
    (hfind : findActivity db activity_id = some a)
    (hown : a.clerk_id ∈ a.participants)
    (hnoconn : ∀ c ∈ db.connections, ¬ connMatches u a.clerk_id activity_id c = true)
    (hfresh : ∀ c ∈ db.connections, c.id ≠ db.nextConnectionId)
    (db' : DB) (hok : join_activity db activity_id u now = .ok db') :
    ∃ c, c ∈ db'.connections
      ∧ c.from_clerk_id = u ∧ c.to_clerk_id = a.clerk_id
      ∧ c.activity_id = activity_id
      ∧ u ≠ a.clerk_id
      ∧ (∀ r accept t2, (respond_to_connection db' c.id r accept t2).isSome →
          r = a.clerk_id)
      ∧ (∀ accept t2, respond_to_connection db' c.id u accept t2 = none) := by
  rcases join_activity_ok hok with ⟨a0, hfind0, hchk, hdb⟩
  rw [hfind] at hfind0
  have ha0 : a0 = a := (Option.some.inj hfind0).symm
  subst ha0
  rcases join_check_none hchk with ⟨_, hmem, _⟩
  have hneq : u ≠ a0.clerk_id := fun h => hmem (h ▸ hown)
  have hccr : (join_write db activity_id u now).connections.find?
      (connMatches u a0.clerk_id activity_id) = none := by
    rw [join_write_connections]
    exact List.find?_eq_none.mpr hnoconn
  rw [ccr_of_not_found _ u a0.clerk_id activity_id now hccr] at hdb
  subst hdb
  refine ⟨newConnection (join_write db activity_id u now) u a0.clerk_id activity_id now,
    ?_, rfl, rfl, rfl, hneq, ?_, ?_⟩
  · exact List.mem_append_right _ (List.mem_singleton.mpr rfl)
  · -- every successful respond is by the owner
    have hfc : findConnection
        { join_write db activity_id u now with
          connections := (join_write db activity_id u now).connections ++
            [newConnection (join_write db activity_id u now) u a0.clerk_id activity_id now]
          nextConnectionId := (join_write db activity_id u now).nextConnectionId + 1 }
        (newConnection (join_write db activity_id u now) u a0.clerk_id activity_id now).id =
        some (newConnection (join_write db activity_id u now) u a0.clerk_id activity_id now) := by
      unfold findConnection
      rw [List.find?_append]
      have hpre : (join_write db activity_id u now).connections.find?
          (fun x => x.id == (newConnection (join_write db activity_id u now)
            u a0.clerk_id activity_id now).id) = none := by
        rw [join_write_connections]
        refine List.find?_eq_none.mpr ?_
        intro c hc
        simpa [newConnection, join_write] using hfresh c hc
      rw [hpre, Option.none_or]
      simp
    intro r accept t2 hsome
    by_contra hr
    rw [(respond_characterization _ _ r accept t2).1.mpr
      (Or.inr ⟨_, hfc, fun h => hr h.symm⟩)] at hsome
    cases hsome
  · -- the joining user cannot respond
    intro accept t2
    have hfc : findConnection
        { join_write db activity_id u now with
          connections := (join_write db activity_id u now).connections ++
            [newConnection (join_write db activity_id u now) u a0.clerk_id activity_id now]
          nextConnectionId := (join_write db activity_id u now).nextConnectionId + 1 }
        (newConnection (join_write db activity_id u now) u a0.clerk_id activity_id now).id =
        some (newConnection (join_write db activity_id u now) u a0.clerk_id activity_id now) := by
      unfold findConnection
      rw [List.find?_append]
      have hpre : (join_write db activity_id u now).connections.find?
          (fun x => x.id == (newConnection (join_write db activity_id u now)
            u a0.clerk_id activity_id now).id) = none := by
        rw [join_write_connections]
        refine List.find?_eq_none.mpr ?_
        intro c hc
        simpa [newConnection, join_write] using hfresh c hc
      rw [hpre, Option.none_or]
      simp
    exact (respond_characterization _ _ u accept t2).1.mpr
      (Or.inr ⟨_, hfc, fun h => hneq h.symm⟩)

/-- The store produced by "B" joining the concrete one-slot-free activity. -/
def joinedDb : DB :=
  (create_connection_request (join_write joinableDb 1 "B" 9) "B" "A" 1 9).1

/-- Closed instance of `join_connection_recipient_spec` on the concrete store. -/
theorem join_connection_recipient_spec_witness :
    ∃ c, c ∈ joinedDb.connections
      ∧ c.from_clerk_id = "B" ∧ c.to_clerk_id = joinableActivity.clerk_id
      ∧ c.activity_id = 1
      ∧ "B" ≠ joinableActivity.clerk_id
      ∧ (∀ r accept t2, (respond_to_connection joinedDb c.id r accept t2).isSome →
          r = joinableActivity.clerk_id)
      ∧ (∀ accept t2, respond_to_connection joinedDb c.id "B" accept t2 = none) :=
  join_connection_recipient_spec joinableDb 1 "B" 9 joinableActivity (by decide)
    (by decide) (by decide) (by decide) joinedDb (by decide)

/-! ### C2: nearby search ordering -/

/-- A public, active, unexpired activity at (1, 2), created at time 0. -/
def nearA : Activity :=
  { id := 10, clerk_id := "A", activity_type := "cafe", lat := 1, lon := 2,
    place_name := none, scheduled_time := 0, mood := none, description := none,
    max_participants := 5, participants := ["A"], participant_count := 1,
    is_public := true, status := "active", created_at := 0, updated_at := 0,
    expires_at := 100 }

/-- A second such activity at the same point, created later (time 1). -/
def nearB : Activity :=
  { id := 11, clerk_id := "B", activity_type := "cafe", lat := 1, lon := 2,
    place_name := none, scheduled_time := 0, mood := none, description := none,
    max_participants := 5, participants := ["B"], participant_count := 1,
    is_public := true, status := "active", created_at := 1, updated_at := 1,
    expires_at := 100 }

/-- **C2 (failing input).** `find_nearby_activities` performs no re-sort: it
returns the store's list order with distances attached. `nearA` and `nearB`
sit at the same point (distance ties), both match the query filters, and a
spatial index may legally return the tie as `[nearB, nearA]`; the code then
returns `[nearB, nearA]` annotated — violating the claimed ordering, whose
creation-time tie-break demands `nearA` (created earlier) first. `dist`
abstracts the float haversine-and-round computation; the only fact used is
that the distance from the search center to an activity at the very same
coordinates is exactly 0, which holds of the float code. -/
theorem find_nearby_not_sorted (dist : Rat × Rat → Rat × Rat → Rat)
    (hd : dist (1, 2) (1, 2) = 0) :
    (nearbyFilter 50 none none none nearB = true
      ∧ nearbyFilter 50 none none none nearA = true
      ∧ nearB.lat = nearA.lat ∧ nearB.lon = nearA.lon)
    ∧ find_nearby_activities dist 1 2 [nearB, nearA] = [(nearB, 0), (nearA, 0)]
    ∧ nearA.created_at < nearB.created_at
    ∧ ¬ List.Pairwise (fun x y : Activity × Rat =>
          x.2 < y.2 ∨ (x.2 = y.2 ∧ x.1.created_at ≤ y.1.created_at))
        (find_nearby_activities dist 1 2 [nearB, nearA]) := by
  have heval : find_nearby_activities dist 1 2 [nearB, nearA] =
      [(nearB, 0), (nearA, 0)] := by
    simp [find_nearby_activities, nearA, nearB, hd]
  refine ⟨⟨by decide, by decide, by decide, by decide⟩, heval, by decide, ?_⟩
  rw [heval]
  intro hpair
  rcases List.pairwise_cons.mp hpair with ⟨h1, _⟩
  rcases h1 (nearA, 0) (List.mem_singleton.mpr rfl) with h | ⟨_, hle⟩
  · exact absurd h (lt_irrefl 0)
  · exact absurd hle (by decide)

/-- Closed instance of `find_nearby_not_sorted` at a concrete distance
function with the point-to-itself property. -/
theorem find_nearby_not_sorted_witness :
    ¬ List.Pairwise (fun x y : Activity × Rat =>
        x.2 < y.2 ∨ (x.2 = y.2 ∧ x.1.created_at ≤ y.1.created_at))
      (find_nearby_activities (fun _ _ => 0) 1 2 [nearB, nearA]) :=
  (find_nearby_not_sorted (fun _ _ => 0) rfl).2.2.2
